import Mathlib

/-!
Verification of the ants-vs-bees lane-defense engine (`src/game.ts`, `src/ants.ts`).
The TypeScript classes are shallowly embedded as Lean structures and pure
functions; JavaScript `undefined` is modelled with `Option`, thrown exceptions
with `Except Unit` (`Except.error ()` marks a `TypeError` escaping the guarded
region), and JS numbers holding armor/food with `Int`.
-/

deriving instance DecidableEq for Except

namespace AntsBees

/-- Embeds the `Ant` objects of `ants.ts`: `name`/`armor` from `Insect`,
`foodCost` from `Ant`, `isGuard` distinguishes `GuardAnt` (used by
`Place.addAnt`'s `instanceof GuardAnt` test), `boost` is the `Ant.boost` tag. -/
structure AntV where
  name : String
  armor : Int
  foodCost : Int
  isGuard : Bool
  boost : Option String
  deriving Repr, DecidableEq

/-- Embeds `Place` (game.ts): the base-defender slot `ant`, the independent
`guard` slot, and the ordered resident bee collection (bees carried as ids). -/
structure Cell where
  ant : Option AntV
  guard : Option AntV
  bees : List Nat
  deriving Repr, DecidableEq

/-- `Place.getAnt` (game.ts:26-31): the visible occupant is the guard when
present, else the base ant. -/
def getAntV (c : Cell) : Option AntV :=
  match c.guard with
  | some g => some g
  | none => c.ant

/-- `Place.addAnt` (game.ts:56-71): a guard goes into the guard slot, any other
ant into the base slot; returns whether placement succeeded, with the cell
unchanged on failure. -/
def addAnt (a : AntV) (c : Cell) : Bool × Cell :=
  if a.isGuard then
    match c.guard with
    | none => (true, { c with guard := some a })
    | some _ => (false, c)
  else
    match c.ant with
    | none => (true, { c with ant := some a })
    | some _ => (false, c)

/-- `Place.removeAnt` (game.ts:76-87): removes and returns the guard if the
guard slot is occupied, else removes and returns the base ant. -/
def removeAntOp (c : Cell) : Cell × Option AntV :=
  match c.guard with
  | some g => ({ c with guard := none }, some g)
  | none => ({ c with ant := none }, c.ant)

/-- `Ant.setBoost` applied to the result of `Place.getAnt`: the tag lands on
the guard when one is present, else on the base ant. -/
def setBoostV (c : Cell) (b : String) : Cell :=
  match c.guard with
  | some g => { c with guard := some { g with boost := some b } }
  | none =>
    match c.ant with
    | some a => { c with ant := some { a with boost := some b } }
    | none => c

/-- `Insect.reduceArmor` (ants.ts:25-33) invoked on the insect in the base
slot of `c`: armor is decremented on the object (still referenced by the
slot), and on death `place.removeInsect(this)` runs `Place.removeAnt`,
which removes the guard first when one is present. -/
def antReduceArmorBase (c : Cell) (amt : Int) : Cell :=
  match c.ant with
  | none => c
  | some a =>
    let c' := { c with ant := some { a with armor := a.armor - amt } }
    if a.armor - amt ≤ 0 then (removeAntOp c').1 else c'

/-- `Insect.reduceArmor` invoked on the insect in the guard slot of `c`. -/
def antReduceArmorGuard (c : Cell) (amt : Int) : Cell :=
  match c.guard with
  | none => c
  | some g =>
    let c' := { c with guard := some { g with armor := g.armor - amt } }
    if g.armor - amt ≤ 0 then (removeAntOp c').1 else c'

/-- Damage directed at the cell's visible occupant (`place.getAnt()` followed
by `reduceArmor`, as in `Bee.sting`): hits the guard when present. -/
def damageCell (c : Cell) (dmg : Int) : Cell :=
  match c.guard with
  | some _ => antReduceArmorGuard c dmg
  | none => antReduceArmorBase c dmg

/-- `Place.getClosestBee` loop body (game.ts:39-50): `dist` counts hops from
the starting cell; the walk stops past `maxDistance` or at the end of the
entrance chain, and returns `bees[0]` of the first populated cell at
distance ≥ `minDistance`. The entrance chain is passed as the list of each
visited cell's bee collection, index = hop distance. -/
def getClosestBeeAux (maxD minD : Nat) : List (List Nat) → Nat → Option Nat
  | [], _ => none
  | c :: rest, dist =>
    if maxD < dist then none
    else if minD ≤ dist ∧ 0 < c.length then c.head?
    else getClosestBeeAux maxD minD rest (dist + 1)

/-- `Place.getClosestBee(maxDistance, minDistance = 0)` starting at the head
of the chain. -/
def getClosestBee (cells : List (List Nat)) (maxD : Nat) (minD : Nat := 0) : Option Nat :=
  getClosestBeeAux maxD minD cells 0

/-- Spec-side definition, following the words of the spec: among the hop
distances `d` with `minD ≤ d ≤ maxD` taken in ascending order, the first
resident attacker (head of the cell's collection = first in insertion order)
of the first populated cell, or none. -/
def closestBeeSpec (cells : List (List Nat)) (maxD minD : Nat) : Option Nat :=
  (List.range (maxD + 1)).findSome? fun d =>
    if minD ≤ d then (cells.getD d []).head? else none

/-- JS object lookup `boosts[name]` on the colony's boost inventory,
`undefined` as `none`. -/
def lookupBoost : List (String × Int) → String → Option Int
  | [], _ => none
  | (k, v) :: rest, b => if k = b then some v else lookupBoost rest b

/-- `AntColony.deployAnt` (game.ts:262-272). `oc = none` means the `place`
argument was JS `undefined` (out-of-range grid access); the food check runs
first, and `place.addAnt` on `undefined` throws (`Except.error`). -/
def colonyDeployAnt (food : Int) (a : AntV) (oc : Option Cell) :
    Except Unit (Option String × Int × Option Cell) :=
  if a.foodCost ≤ food then
    match oc with
    | none => Except.error ()
    | some c =>
      let r := addAnt a c
      if r.1 then Except.ok (none, food - a.foodCost, some r.2)
      else Except.ok (some "tunnel already occupied", food, some r.2)
  else Except.ok (some "not enough food", food, oc)

/-- `AntColony.applyBoost` (game.ts:282-292): the inventory test runs before
the cell is touched; `place.getAnt()` on an `undefined` place throws. Note
that the source never decrements `this.boosts`, so the inventory is returned
unchanged on every path. -/
def colonyApplyBoost (inv : List (String × Int)) (boost : String) (oc : Option Cell) :
    Except Unit (Option String × List (String × Int) × Option Cell) :=
  match lookupBoost inv boost with
  | none => Except.ok (some "no such boost", inv, oc)
  | some n =>
    if n < 1 then Except.ok (some "no such boost", inv, oc)
    else
      match oc with
      | none => Except.error ()
      | some c =>
        match getAntV c with
        | none => Except.ok (some "no Ant at location", inv, some c)
        | some _ => Except.ok (none, inv, some (setBoostV c boost))

/-- Numeric value of an ASCII digit character, `none` otherwise. -/
def digitVal (c : Char) : Option Nat :=
  if '0' ≤ c ∧ c ≤ '9' then some (c.toNat - '0'.toNat) else none

/-- Accumulating decimal parser over the remaining digit characters. -/
def parseDigitsAux : List Char → Nat → Option Nat
  | [], acc => some acc
  | c :: rest, acc =>
    match digitVal c with
    | some d => parseDigitsAux rest (acc * 10 + d)
    | none => none

/-- JS array-index semantics for a property key: `arr[key]` hits index `n`
exactly when `key` is the canonical decimal form of `n` (no sign, no blanks,
no leading zero except `"0"` itself); any other key is a plain property
lookup yielding `undefined`. -/
def canonIndexChars : List Char → Option Nat
  | [] => none
  | c :: rest =>
    match digitVal c with
    | none => none
    | some 0 => if rest = [] then some 0 else none
    | some d => parseDigitsAux rest d

/-- `String.prototype.split(',')`: splits on every comma, keeping empty
pieces, never failing. -/
def splitCommaAux : List Char → List Char → List (List Char)
  | [], acc => [acc.reverse]
  | c :: rest, acc =>
    if c = ',' then acc.reverse :: splitCommaAux rest []
    else splitCommaAux rest (c :: acc)

/-- ASCII lowering, as used by `antType.toLowerCase()` on the fixed
variant names. -/
def lowerChar (c : Char) : Char :=
  if 'A' ≤ c ∧ c ≤ 'Z' then Char.ofNat (c.toNat + 32) else c

/-- The `switch` of `AntGame.deployAnt` (game.ts:389-402): the type name is
lowered and matched against the five variants, each constructed with the
armor and food cost from its `ants.ts` constructor. -/
def antForType (t : String) : Option AntV :=
  let l := t.data.map lowerChar
  if l = "grower".data then some ⟨"Grower", 1, 1, false, none⟩
  else if l = "thrower".data then some ⟨"Thrower", 1, 4, false, none⟩
  else if l = "eater".data then some ⟨"Eater", 2, 4, false, none⟩
  else if l = "scuba".data then some ⟨"Scuba", 1, 5, false, none⟩
  else if l = "guard".data then some ⟨"Guard", 2, 4, true, none⟩
  else none

/-- `getPlaces()[coords[0]][coords[1]]` with JS semantics.
`Except.error ()`: the first index missed (`places[coords[0]]` is
`undefined`), so the second subscript throws a `TypeError` inside the `try`.
`Except.ok (i, none)`: the row exists but the cell key misses (absent second
coordinate, non-canonical key, or step out of range) — the expression
evaluates to `undefined` without throwing. `Except.ok (i, some j)`: a real
cell. -/
def resolveCoordIdx (grid : List (List Cell)) (s : String) : Except Unit (Nat × Option Nat) :=
  let parts := splitCommaAux s.data []
  match canonIndexChars (parts.headD []) with
  | none => Except.error ()
  | some i =>
    if i < grid.length then
      match parts.get? 1 with
      | none => Except.ok (i, none)
      | some stepKey =>
        match canonIndexChars stepKey with
        | none => Except.ok (i, none)
        | some j =>
          if j < (grid.getD i []).length then Except.ok (i, some j)
          else Except.ok (i, none)
    else Except.error ()

/-- True exactly when the coordinate string resolves to an existing cell. -/
def coordResolves (grid : List (List Cell)) (s : String) : Bool :=
  match resolveCoordIdx grid s with
  | Except.ok (_, some _) => true
  | _ => false

/-- Writes an updated cell back into the grid. -/
def updateCell (grid : List (List Cell)) (i j : Nat) (c : Cell) : List (List Cell) :=
  grid.set i ((grid.getD i []).set j c)

/-- The game-visible state: colony food, boost inventory, cell grid
(lane × step), the queen's goal cell's bees, and the hive's unreleased bees. -/
structure GameState where
  food : Int
  boosts : List (String × Int)
  grid : List (List Cell)
  queenBees : List Nat
  hiveBees : List Nat
  deriving Repr, DecidableEq

/-- `AntGame.deployAnt` (game.ts:387-411): unknown type short-circuits before
the `try`; inside it the coordinate is resolved and `AntColony.deployAnt`
runs, any throw being caught as `'illegal location'`. -/
def gameDeployAnt (g : GameState) (antType coord : String) : Option String × GameState :=
  match antForType antType with
  | none => (some "unknown ant type", g)
  | some a =>
    match resolveCoordIdx g.grid coord with
    | Except.error _ => (some "illegal location", g)
    | Except.ok (i, onej) =>
      let oc : Option Cell := onej.map fun j => (g.grid.getD i []).getD j ⟨none, none, []⟩
      match colonyDeployAnt g.food a oc with
      | Except.error _ => (some "illegal location", g)
      | Except.ok (msg, food', oc') =>
        (msg, { g with
                  food := food',
                  grid := (match onej, oc' with
                           | some j, some c' => updateCell g.grid i j c'
                           | _, _ => g.grid) })

/-- `AntGame.removeAnt` (game.ts:416-425): resolves the coordinate and calls
`place.removeAnt()`; both failure shapes throw inside the `try` and are
caught as `'illegal location'`. -/
def gameRemoveAnt (g : GameState) (coord : String) : Option String × GameState :=
  match resolveCoordIdx g.grid coord with
  | Except.error _ => (some "illegal location", g)
  | Except.ok (_, none) => (some "illegal location", g)
  | Except.ok (i, some j) =>
    let c := (g.grid.getD i []).getD j ⟨none, none, []⟩
    (none, { g with grid := updateCell g.grid i j (removeAntOp c).1 })

/-- `AntGame.boostAnt` (game.ts:430-438): resolves the coordinate and
delegates to `AntColony.applyBoost`, catching any throw as
`'illegal location'`. -/
def gameBoostAnt (g : GameState) (boost coord : String) : Option String × GameState :=
  match resolveCoordIdx g.grid coord with
  | Except.error _ => (some "illegal location", g)
  | Except.ok (i, onej) =>
    let oc : Option Cell := onej.map fun j => (g.grid.getD i []).getD j ⟨none, none, []⟩
    match colonyApplyBoost g.boosts boost oc with
    | Except.error _ => (some "illegal location", g)
    | Except.ok (msg, inv', oc') =>
      (msg, { g with
                boosts := inv',
                grid := (match onej, oc' with
                         | some j, some c' => updateCell g.grid i j c'
                         | _, _ => g.grid) })

/-- `AntColony.getAllBees` (game.ts:335-343): every resident bee of every
grid cell, rows then columns. The queen's place is not part of the grid. -/
def allBees (g : GameState) : List Nat :=
  g.grid.flatMap fun row => row.flatMap Cell.bees

/-- `AntGame.gameIsWon` (game.ts:372-380) with
`AntColony.queenHasBees` (game.ts:244). -/
def gameIsWon (g : GameState) : Option Bool :=
  if 0 < g.queenBees.length then some false
  else if (allBees g).length + g.hiveBees.length = 0 then some true
  else none

/-- The world a single bee's `act` (ants.ts:71-83) touches: its own status,
armor and fixed damage, its current cell, and the cell behind the exit
link. -/
structure BeeWorld where
  beeId : Nat
  status : Option String
  armor : Int
  damage : Int
  cur : Cell
  exitCell : Cell
  deriving Repr, DecidableEq

/-- `Bee.act` (ants.ts:71-83): when blocked (`place.getAnt()` defined) and
not `'cold'`, sting the visible occupant; otherwise, when armor is positive
and not `'stuck'`, leave the cell through the exit link
(`Place.exitBee` = `removeBee` + `addBee`); the status is cleared
unconditionally at the end. -/
def beeActW (w : BeeWorld) : BeeWorld :=
  let acted :=
    if (getAntV w.cur).isSome then
      if w.status ≠ some "cold" then { w with cur := damageCell w.cur w.damage } else w
    else if 0 < w.armor then
      if w.status ≠ some "stuck" then
        { w with cur := { w.cur with bees := w.cur.bees.erase w.beeId },
                 exitCell := { w.exitCell with bees := w.exitCell.bees ++ [w.beeId] } }
      else w
    else w
  { acted with status := none }

/-- Spec-side definition of the attacker turn, following the amended claim:
sting when the cell has a visible occupant and the status is not the
disabling one; otherwise move one hop exactly when the status is not the
immobilizing one AND the armor is still positive; reset the status in every
case. -/
def beeTurnSpecA (w : BeeWorld) : BeeWorld :=
  let acted :=
    if (getAntV w.cur).isSome then
      if w.status = some "cold" then w
      else { w with cur := damageCell w.cur w.damage }
    else if w.status ≠ some "stuck" ∧ 0 < w.armor then
      { w with cur := { w.cur with bees := w.cur.bees.erase w.beeId },
               exitCell := { w.exitCell with bees := w.exitCell.bees ++ [w.beeId] } }
    else w
  { acted with status := none }

/-- `Insect.reduceArmor` (ants.ts:25-33) seen from one insect: `hasPlace`
records whether `this.place` is still set (it is cleared by
`Place.removeBee`). On a lethal result with the back-reference cleared,
`this.place.removeInsect(this)` dereferences `undefined` and throws
(`none`); otherwise the new armor and the terminal flag are returned. -/
def insectReduceArmorP (armor : Int) (hasPlace : Bool) (amt : Int) : Option (Int × Bool) :=
  let a := armor - amt
  if a ≤ 0 then
    if hasPlace then some (a, true) else none
  else some (a, false)

/-- The state an `EaterAnt` (ants.ts:186-254) touches: its armor, the
digestion counter `turnsEating`, the private stomach cell's bees, its field
cell's bees, and the field cell's two defender-slot occupancies (for the
detachment run by `Insect.reduceArmor` on death). -/
structure EaterState where
  armor : Int
  turnsEating : Nat
  stomach : List Nat
  fieldBees : List Nat
  cellAnt : Bool
  fieldGuard : Bool
  deriving Repr, DecidableEq

/-- `EaterAnt.act` (ants.ts:204-223): at counter 0, capture the bee at
distance 0 (`getClosestBee(0)` = head of the own cell's bees) into the
stomach and set the counter to 1; at counter > 3, drop the stomach's first
bee and reset to 0; otherwise just increment the counter. -/
def eaterAct (s : EaterState) : EaterState :=
  if s.turnsEating = 0 then
    match s.fieldBees with
    | [] => s
    | b :: rest =>
      { s with fieldBees := rest, stomach := s.stomach ++ [b], turnsEating := 1 }
  else if 3 < s.turnsEating then
    { s with stomach := s.stomach.tail, turnsEating := 0 }
  else { s with turnsEating := s.turnsEating + 1 }

/-- `place.removeInsect(this)` on the eater's death: `Place.removeAnt`
removes the guard-slot occupant first when one is present, else the base
slot. -/
def eaterDetach (s : EaterState) : EaterState :=
  if s.fieldGuard then { s with fieldGuard := false } else { s with cellAnt := false }

/-- `super.reduceArmor(amount)` = `Insect.reduceArmor` (ants.ts:25-33) run on
the eater: decrements armor (again) and detaches on ≤ 0. -/
def eaterSuperReduceArmor (s : EaterState) (amt : Int) : EaterState × Bool :=
  let s' := { s with armor := s.armor - amt }
  if s'.armor ≤ 0 then (eaterDetach s', true) else (s', false)

/-- `EaterAnt.reduceArmor` (ants.ts:232-254): decrement armor; surviving with
counter 1 regurgitates the stomach's first bee into the field cell and jumps
the counter to 3; dying with counter in {1, 2} regurgitates first, then
delegates to `super.reduceArmor(amount)`. `none` marks the unreachable
empty-stomach regurgitation, where `place.addBee(undefined)` would throw. -/
def eaterReduceArmor (s : EaterState) (amt : Int) : Option (EaterState × Bool) :=
  let s1 := { s with armor := s.armor - amt }
  if 0 < s1.armor then
    if s1.turnsEating = 1 then
      match s1.stomach with
      | eaten :: rest =>
        some ({ s1 with
                  stomach := rest,
                  fieldBees := s1.fieldBees ++ [eaten],
                  turnsEating := 3 }, false)
      | [] => none
    else some (s1, false)
  else
    if 0 < s1.turnsEating ∧ s1.turnsEating ≤ 2 then
      match s1.stomach with
      | eaten :: rest =>
        some (eaterSuperReduceArmor
          { s1 with stomach := rest, fieldBees := s1.fieldBees ++ [eaten] } amt)
      | [] => none
    else some (eaterSuperReduceArmor s1 amt)

/-! ## Helper lemmas -/

/-- A rejected placement leaves the cell unchanged. -/
theorem addAnt_fail_eq (a : AntV) (c : Cell) (h : (addAnt a c).1 = false) :
    (addAnt a c).2 = c := by
  unfold addAnt at *
  by_cases hg : a.isGuard
  · cases hc : c.guard <;> simp [hg, hc] at *
  · cases hc : c.ant <;> simp [hg, hc] at *

/-! ## C6: Colony.deployAnt resource arithmetic -/

/-- C6. `AntColony.deployAnt` fails with the insufficient-resource token
exactly when `food < cost` (leaving food and cell untouched); with enough
food it either places the ant and debits exactly the cost, or fails with the
occupied token leaving food and cell untouched. -/
theorem colony_deploy_spec (food : Int) (a : AntV) (c : Cell) :
    colonyDeployAnt food a (some c) =
      Except.ok (if food < a.foodCost then (some "not enough food", food, some c)
        else if (addAnt a c).1 then (none, food - a.foodCost, some (addAnt a c).2)
        else (some "tunnel already occupied", food, some c)) := by
  unfold colonyDeployAnt
  by_cases h : a.foodCost ≤ food
  · rw [if_pos h, if_neg (not_lt.mpr h)]
    by_cases hs : (addAnt a c).1
    · simp [hs]
    · have hb : (addAnt a c).1 = false := by simpa using hs
      simp [hs, hb, addAnt_fail_eq a c hb]
  · rw [if_neg h, if_pos (lt_of_not_le h)]

/-! ## C7: tri-state win condition -/

/-- C7. `AntGame.gameIsWon` is tri-state: `some false` exactly when an
attacker occupies the goal (queen) cell — taking precedence —, `some true`
exactly when the goal cell, the whole grid and the hive reservoir hold no
attacker, and `none` in every other state. -/
theorem gameIsWon_tristate (g : GameState) :
    (gameIsWon g = some false ↔ g.queenBees ≠ [])
    ∧ (gameIsWon g = some true ↔ (g.queenBees = [] ∧ allBees g = [] ∧ g.hiveBees = []))
    ∧ (gameIsWon g = none ↔ (g.queenBees = [] ∧ (allBees g ≠ [] ∨ g.hiveBees ≠ []))) := by
  have hz : (allBees g).length + g.hiveBees.length = 0 ↔ allBees g = [] ∧ g.hiveBees = [] := by
    rw [Nat.add_eq_zero]
    simp [List.length_eq_zero]
  unfold gameIsWon
  by_cases h1 : 0 < g.queenBees.length
  · have h1' : g.queenBees ≠ [] := List.length_pos.mp h1
    simp [h1, h1']
  · have h1' : g.queenBees = [] := by
      simpa [List.length_eq_zero] using Nat.eq_zero_of_not_pos h1
    by_cases h2 : (allBees g).length + g.hiveBees.length = 0
    · obtain ⟨ha, hb⟩ := hz.mp h2
      simp [h1, h2, h1', ha, hb]
    · have hnb : ¬(allBees g = [] ∧ g.hiveBees = []) := fun hh => h2 (hz.mpr hh)
      have hd : allBees g ≠ [] ∨ g.hiveBees ≠ [] := by
        by_contra hcon
        push_neg at hcon
        exact hnb ⟨hcon.1, hcon.2⟩
      simp only [if_neg h1, if_neg h2]
      refine ⟨⟨fun h => Option.noConfusion h, fun h => absurd h1' h⟩, ?_, ?_⟩
      · constructor
        · intro h
          exact Option.noConfusion h
        · rintro ⟨-, ha, hb⟩
          exact absurd (hz.mpr ⟨ha, hb⟩) h2
      · constructor
        · intro _
          exact ⟨h1', hd⟩
        · intro _
          trivial

/-! ## C10: lethal damage on an Eater decrements armor twice -/

/-- C10. A lethal `reduceArmor` on an Eater subtracts the amount twice —
once in `EaterAnt.reduceArmor` and once more in `Insect.reduceArmor` — so
the post-detachment armor is `prior − 2·amount`; the call returns
terminal = `true` and the detachment (`Place.removeAnt` on the field cell)
runs exactly once. -/
theorem eater_lethal_double_decrement (s : EaterState) (amt : Int)
    (h1 : 0 ≤ amt) (h2 : s.armor - amt ≤ 0)
    (h3 : s.turnsEating = 1 ∨ s.turnsEating = 2 → s.stomach ≠ []) :
    ∃ s', eaterReduceArmor s amt = some (s', true)
      ∧ s'.armor = s.armor - 2 * amt
      ∧ s'.cellAnt = (eaterDetach s).cellAnt
      ∧ s'.fieldGuard = (eaterDetach s).fieldGuard := by
  have hnpos : ¬ 0 < s.armor - amt := not_lt.mpr h2
  have hlethal : s.armor - amt - amt ≤ 0 := by omega
  unfold eaterReduceArmor eaterSuperReduceArmor
  simp only [hnpos, if_false]
  by_cases hcnt : 0 < s.turnsEating ∧ s.turnsEating ≤ 2
  · have hne : s.stomach ≠ [] := h3 (by omega)
    cases hst : s.stomach with
    | nil => exact absurd hst hne
    | cons e rest =>
      refine ⟨eaterDetach ⟨s.armor - amt - amt, s.turnsEating, rest,
        s.fieldBees ++ [e], s.cellAnt, s.fieldGuard⟩, ?_, ?_, ?_, ?_⟩
      · simp [hcnt, hst, hlethal]
      · by_cases hg : s.fieldGuard <;> simp [eaterDetach, hg] <;> omega
      · by_cases hg : s.fieldGuard <;> simp [eaterDetach, hg]
      · by_cases hg : s.fieldGuard <;> simp [eaterDetach, hg]
  · refine ⟨eaterDetach ⟨s.armor - amt - amt, s.turnsEating, s.stomach,
      s.fieldBees, s.cellAnt, s.fieldGuard⟩, ?_, ?_, ?_, ?_⟩
    · simp [hcnt, hlethal]
    · by_cases hg : s.fieldGuard <;> simp [eaterDetach, hg] <;> omega
    · by_cases hg : s.fieldGuard <;> simp [eaterDetach, hg]
    · by_cases hg : s.fieldGuard <;> simp [eaterDetach, hg]

/-- Witness for C10: an Eater with armor 2, idle digestion, hit for 2,
ends at armor −2 with terminal `true` and its base slot detached. -/
theorem eater_lethal_double_decrement_witness :
    (0 : Int) ≤ 2 ∧ (2 : Int) - 2 ≤ 0
    ∧ (∃ s', eaterReduceArmor ⟨2, 0, [], [], true, false⟩ 2 = some (s', true)
        ∧ s'.armor = 2 - 2 * 2
        ∧ s'.cellAnt = (eaterDetach ⟨2, 0, [], [], true, false⟩).cellAnt
        ∧ s'.fieldGuard = (eaterDetach ⟨2, 0, [], [], true, false⟩).fieldGuard) :=
  ⟨by decide, by decide,
    eater_lethal_double_decrement ⟨2, 0, [], [], true, false⟩ 2 (by decide) (by decide)
      (by intro h; cases h <;> simp_all)⟩

/-! ## C9: reduce-armor on an already-detached insect -/

/-- C9 counterexample: a detached insect (cleared back-reference) with armor
0 hit for 1 does not produce the claimed quiet armor decrement
`some (-1, false)` — the call throws (`none`), because
`this.place.removeInsect(this)` dereferences `undefined`. -/
theorem detached_reduceArmor_throws_counterexample :
    insectReduceArmorP 0 false 1 = none
    ∧ insectReduceArmorP 0 false 1 ≠ some (-1, false) := by decide

/-- C9 amended: invoking `reduceArmor` on an already-detached insect
(armor ≤ 0, cell back-reference cleared) with a non-negative amount always
raises a fatal `TypeError` while attempting a second detachment through the
cleared reference; it is not a recoverable no-op. -/
theorem detached_reduceArmor_amended (armor amt : Int)
    (h1 : armor ≤ 0) (h2 : 0 ≤ amt) :
    insectReduceArmorP armor false amt = none := by
  unfold insectReduceArmorP
  have h : armor - amt ≤ 0 := by omega
  simp [h]

/-- Witness for C9's amended theorem at armor 0, amount 1. -/
theorem detached_reduceArmor_amended_witness :
    (0 : Int) ≤ 0 ∧ (0 : Int) ≤ 1 ∧ insectReduceArmorP 0 false 1 = none :=
  ⟨by decide, by decide, detached_reduceArmor_amended 0 1 (by decide) (by decide)⟩

/-! ## C3: guard/base slot independence -/

/-- C3 counterexample: a cell holding a base Thrower (armor 1) and a Guard
(armor 2); lethal `reduceArmor` on the *base* ant (e.g. the BugSpray
self-hit of 10) runs `removeInsect` → `removeAnt`, which removes the
*guard* and leaves the expired base ant in its slot — refuting "the
detachment removes the base defender itself and not the guard". -/
theorem base_defender_death_removes_guard_counterexample :
    (antReduceArmorBase ⟨some ⟨"Thrower", 1, 4, false, none⟩,
        some ⟨"Guard", 2, 4, true, none⟩, []⟩ 10).guard = none
    ∧ (antReduceArmorBase ⟨some ⟨"Thrower", 1, 4, false, none⟩,
        some ⟨"Guard", 2, 4, true, none⟩, []⟩ 10).ant =
      some ⟨"Thrower", -9, 4, false, none⟩ := by decide

/-- C3 amended: with both slots occupied, cell-directed damage resolves
against the guard and never touches the base slot; explicit removal takes
the guard and leaves the base defender; guard armor-exhaustion removes only
the guard; but base-defender armor-exhaustion removes the *guard* and
leaves the expired base defender in place. -/
theorem guard_indirection_amended (c : Cell) (gA aA : AntV) (amtG amtB : Int)
    (hg : c.guard = some gA) (ha : c.ant = some aA)
    (hlg : gA.armor - amtG ≤ 0) (hlb : aA.armor - amtB ≤ 0) :
    (∀ d, damageCell c d = antReduceArmorGuard c d)
    ∧ (∀ d, (antReduceArmorGuard c d).ant = c.ant)
    ∧ ((removeAntOp c).1.ant = c.ant ∧ (removeAntOp c).1.guard = none)
    ∧ antReduceArmorGuard c amtG = { c with guard := none }
    ∧ antReduceArmorBase c amtB =
        { c with guard := none, ant := some { aA with armor := aA.armor - amtB } } := by
  refine ⟨?_, ?_, ?_, ?_, ?_⟩
  · intro d
    unfold damageCell
    rw [hg]
  · intro d
    unfold antReduceArmorGuard removeAntOp
    rw [hg]
    by_cases h : gA.armor - d ≤ 0 <;> simp [h]
  · unfold removeAntOp
    rw [hg]
    exact ⟨rfl, rfl⟩
  · unfold antReduceArmorGuard removeAntOp
    rw [hg]
    simp [hlg]
  · unfold antReduceArmorBase removeAntOp
    rw [ha]
    simp [hlb, hg]

/-- Witness for C3's amended theorem: base Thrower armor 1, Guard armor 2,
guard-lethal amount 2, base-lethal amount 10. -/
theorem guard_indirection_amended_witness :
    (⟨some ⟨"Thrower", 1, 4, false, none⟩, some ⟨"Guard", 2, 4, true, none⟩,
        []⟩ : Cell).guard = some ⟨"Guard", 2, 4, true, none⟩
    ∧ (⟨some ⟨"Thrower", 1, 4, false, none⟩, some ⟨"Guard", 2, 4, true, none⟩,
        []⟩ : Cell).ant = some ⟨"Thrower", 1, 4, false, none⟩
    ∧ ((2 : Int) - 2 ≤ 0) ∧ ((1 : Int) - 10 ≤ 0)
    ∧ antReduceArmorGuard ⟨some ⟨"Thrower", 1, 4, false, none⟩,
        some ⟨"Guard", 2, 4, true, none⟩, []⟩ 2 =
      ⟨some ⟨"Thrower", 1, 4, false, none⟩, none, []⟩ :=
  ⟨by decide, by decide, by decide, by decide,
    (guard_indirection_amended ⟨some ⟨"Thrower", 1, 4, false, none⟩,
        some ⟨"Guard", 2, 4, true, none⟩, []⟩ ⟨"Guard", 2, 4, true, none⟩
        ⟨"Thrower", 1, 4, false, none⟩ 2 10 rfl rfl (by decide) (by decide)).2.2.2.1⟩

/-! ## C8: the attacker's turn -/

/-- C8 counterexample: an unblocked bee with armor 0 and no status neither
moves nor acts — its cell keeps the bee and the exit cell stays empty —
refuting the claim's unconditional "else if status ≠ immobilized it moves
one hop" (the source additionally requires positive armor). -/
theorem bee_zero_armor_no_move_counterexample :
    (beeActW ⟨1, none, 0, 1, ⟨none, none, [1]⟩, ⟨none, none, []⟩⟩).cur.bees = [1]
    ∧ (beeActW ⟨1, none, 0, 1, ⟨none, none, [1]⟩, ⟨none, none, []⟩⟩).exitCell.bees = []
    ∧ ¬((beeActW ⟨1, none, 0, 1, ⟨none, none, [1]⟩, ⟨none, none, []⟩⟩).cur.bees = []
        ∧ (beeActW ⟨1, none, 0, 1, ⟨none, none, [1]⟩, ⟨none, none, []⟩⟩).exitCell.bees = [1]) := by
  decide

/-- C8 amended: each attacker turn does exactly one of — sting the visible
occupant when blocked and not disabled; move one hop when unblocked, not
immobilized *and with positive armor*; otherwise nothing — and always
clears the status. Stated as equality with the spec-side turn
`beeTurnSpecA`. -/
theorem bee_act_amended (w : BeeWorld) : beeActW w = beeTurnSpecA w := by
  unfold beeActW beeTurnSpecA
  by_cases hb : (getAntV w.cur).isSome <;>
    by_cases hc : w.status = some "cold" <;>
      by_cases hs : w.status = some "stuck" <;>
        by_cases harm : 0 < w.armor <;>
          simp [hb, hc, hs, harm]

/-! ## C1: apply-boost bookkeeping -/

/-- C1 counterexample: with inventory holding one FlyingLeaf and an ant in
the cell, `applyBoost` succeeds and assigns the tag — yet the returned
inventory still holds count 1: the source never decrements `this.boosts`,
refuting "the inventory count for that name is decremented by exactly 1". -/
theorem applyBoost_keeps_inventory_counterexample :
    colonyApplyBoost [("FlyingLeaf", 1)] "FlyingLeaf"
        (some ⟨some ⟨"Thrower", 1, 4, false, none⟩, none, []⟩) =
      Except.ok (none, [("FlyingLeaf", 1)],
        some ⟨some ⟨"Thrower", 1, 4, false, some "FlyingLeaf"⟩, none, []⟩)
    ∧ [(("FlyingLeaf" : String), (1 : Int))] ≠ [("FlyingLeaf", 0)] := by decide

/-- C1 amended: `applyBoost` fails with the unknown-boost token when the
inventory entry is missing or below 1, fails with the no-ant token when the
visible occupant is absent, and otherwise assigns the boost tag to the
visible occupant — with the inventory left *unchanged on every path*,
including success. -/
theorem applyBoost_amended (inv : List (String × Int)) (b : String) (c : Cell)
    (n : Int) (a : AntV)
    (hb : lookupBoost inv b = some n) (hn : 1 ≤ n) (ha : getAntV c = some a) :
    colonyApplyBoost inv b (some c) = Except.ok (none, inv, some (setBoostV c b))
    ∧ (∀ inv2 b2 c2, lookupBoost inv2 b2 = none →
        colonyApplyBoost inv2 b2 (some c2) =
          Except.ok (some "no such boost", inv2, some c2))
    ∧ (∀ inv2 b2 c2 n2, lookupBoost inv2 b2 = some n2 → n2 < 1 →
        colonyApplyBoost inv2 b2 (some c2) =
          Except.ok (some "no such boost", inv2, some c2))
    ∧ (∀ inv2 b2 c2 n2, lookupBoost inv2 b2 = some n2 → 1 ≤ n2 → getAntV c2 = none →
        colonyApplyBoost inv2 b2 (some c2) =
          Except.ok (some "no Ant at location", inv2, some c2)) := by
  refine ⟨?_, ?_, ?_, ?_⟩
  · unfold colonyApplyBoost
    rw [hb]
    simp [not_lt.mpr hn, ha]
  · intro inv2 b2 c2 h
    unfold colonyApplyBoost
    rw [h]
  · intro inv2 b2 c2 n2 h hn2
    unfold colonyApplyBoost
    rw [h]
    simp [hn2]
  · intro inv2 b2 c2 n2 h hn2 hno
    unfold colonyApplyBoost
    rw [h]
    simp [not_lt.mpr hn2, hno]

/-- Witness for C1's amended theorem: one IcyLeaf in inventory, a Grower in
the cell; the boost is assigned and the inventory is unchanged. -/
theorem applyBoost_amended_witness :
    lookupBoost [("IcyLeaf", 1)] "IcyLeaf" = some 1
    ∧ ((1 : Int) ≤ 1)
    ∧ getAntV ⟨some ⟨"Grower", 1, 1, false, none⟩, none, []⟩ =
        some ⟨"Grower", 1, 1, false, none⟩
    ∧ colonyApplyBoost [("IcyLeaf", 1)] "IcyLeaf"
        (some ⟨some ⟨"Grower", 1, 1, false, none⟩, none, []⟩) =
      Except.ok (none, [("IcyLeaf", 1)],
        some (setBoostV ⟨some ⟨"Grower", 1, 1, false, none⟩, none, []⟩ "IcyLeaf")) :=
  ⟨by decide, by decide, by decide,
    (applyBoost_amended [("IcyLeaf", 1)] "IcyLeaf"
      ⟨some ⟨"Grower", 1, 1, false, none⟩, none, []⟩ 1 ⟨"Grower", 1, 1, false, none⟩
      (by decide) (by decide) (by decide)).1⟩

/-! ## C5: the Eater's digestion cycle -/

/-- C5. After a capture (counter 0 → 1, bee moved into the stomach) and with
no damage, the held bee stays in the stomach for the next three
action-cycles (counter 2, 3, 4) and is destroyed on the fourth — exactly 4
action-cycles after the capture, not sooner — with the counter reset to 0
and the bee never returning to the field; a single non-lethal hit while the
counter is 1 instead regurgitates the bee into the field cell and jumps the
counter to 3. -/
theorem eater_digestion_cycle (s : EaterState) (b : Nat) (rest : List Nat)
    (h0 : s.turnsEating = 0) (hs : s.stomach = []) (hb : s.fieldBees = b :: rest) :
    (eaterAct s).turnsEating = 1 ∧ (eaterAct s).stomach = [b]
    ∧ (eaterAct (eaterAct s)).turnsEating = 2
    ∧ (eaterAct (eaterAct s)).stomach = [b]
    ∧ (eaterAct (eaterAct (eaterAct s))).turnsEating = 3
    ∧ (eaterAct (eaterAct (eaterAct s))).stomach = [b]
    ∧ (eaterAct (eaterAct (eaterAct (eaterAct s)))).turnsEating = 4
    ∧ (eaterAct (eaterAct (eaterAct (eaterAct s)))).stomach = [b]
    ∧ (eaterAct (eaterAct (eaterAct (eaterAct (eaterAct s))))).turnsEating = 0
    ∧ (eaterAct (eaterAct (eaterAct (eaterAct (eaterAct s))))).stomach = []
    ∧ (eaterAct (eaterAct (eaterAct (eaterAct (eaterAct s))))).fieldBees = rest
    ∧ (∀ amt, 0 < s.armor - amt →
        eaterReduceArmor (eaterAct s) amt =
          some (⟨s.armor - amt, 3, [], rest ++ [b], s.cellAnt, s.fieldGuard⟩, false)) := by
  have e1 : eaterAct s = ⟨s.armor, 1, [b], rest, s.cellAnt, s.fieldGuard⟩ := by
    unfold eaterAct
    simp [h0, hb, hs]
  have e2 : eaterAct (⟨s.armor, 1, [b], rest, s.cellAnt, s.fieldGuard⟩ : EaterState) =
      ⟨s.armor, 2, [b], rest, s.cellAnt, s.fieldGuard⟩ := by
    unfold eaterAct
    simp
  have e3 : eaterAct (⟨s.armor, 2, [b], rest, s.cellAnt, s.fieldGuard⟩ : EaterState) =
      ⟨s.armor, 3, [b], rest, s.cellAnt, s.fieldGuard⟩ := by
    unfold eaterAct
    simp
  have e4 : eaterAct (⟨s.armor, 3, [b], rest, s.cellAnt, s.fieldGuard⟩ : EaterState) =
      ⟨s.armor, 4, [b], rest, s.cellAnt, s.fieldGuard⟩ := by
    unfold eaterAct
    simp
  have e5 : eaterAct (⟨s.armor, 4, [b], rest, s.cellAnt, s.fieldGuard⟩ : EaterState) =
      ⟨s.armor, 0, [], rest, s.cellAnt, s.fieldGuard⟩ := by
    unfold eaterAct
    simp
  rw [e1, e2, e3, e4, e5]
  refine ⟨rfl, rfl, rfl, rfl, rfl, rfl, rfl, rfl, rfl, rfl, rfl, ?_⟩
  intro amt hpos
  unfold eaterReduceArmor
  simp [hpos]

/-- Witness for C5: an Eater (armor 2) capturing bee 7 from its cell; the
bee is digested over the next cycles and destroyed on the fourth, and a
non-lethal hit of 1 right after the capture regurgitates it. -/
theorem eater_digestion_cycle_witness :
    (eaterAct (eaterAct (eaterAct (eaterAct
        (eaterAct ⟨2, 0, [], [7], true, false⟩))))).stomach = []
    ∧ (eaterAct (eaterAct (eaterAct
        (eaterAct ⟨2, 0, [], [7], true, false⟩)))).stomach = [7]
    ∧ eaterReduceArmor (eaterAct ⟨2, 0, [], [7], true, false⟩) 1 =
        some (⟨1, 3, [], [7], true, false⟩, false) := by
  obtain ⟨-, -, -, -, -, -, -, h8, -, h10, -, h12⟩ :=
    eater_digestion_cycle ⟨2, 0, [], [7], true, false⟩ 7 [] rfl rfl rfl
  exact ⟨h10, h8, h12 1 (by decide)⟩

/-! ## C4: getClosestBee targeting order -/

/-- `findSome?` only depends on the function's values on the list. -/
theorem findSome?_congr_vals (l : List Nat) (f g : Nat → Option Nat)
    (h : ∀ x ∈ l, f x = g x) : l.findSome? f = l.findSome? g := by
  induction l with
  | nil => rfl
  | cons a t ih =>
    have ha := h a (List.mem_cons_self a t)
    rw [List.findSome?_cons, List.findSome?_cons, ha]
    cases g a with
    | some v => rfl
    | none => exact ih fun x hx => h x (List.mem_cons_of_mem a hx)

/-- `findSome?` of an everywhere-`none` function is `none`. -/
theorem findSome?_vanishes (l : List Nat) (f : Nat → Option Nat)
    (h : ∀ x ∈ l, f x = none) : l.findSome? f = none := by
  induction l with
  | nil => rfl
  | cons a t ih =>
    rw [List.findSome?_cons, h a (List.mem_cons_self a t)]
    exact ih fun x hx => h x (List.mem_cons_of_mem a hx)

/-- The walk of `getClosestBee` starting at hop count `k` agrees with the
first hit of the spec-side search over the remaining distances. -/
theorem getClosestBeeAux_eq (maxD minD : Nat) (cells : List (List Nat)) :
    ∀ k, getClosestBeeAux maxD minD cells k =
      (List.range' k (maxD + 1 - k)).findSome? fun d =>
        if minD ≤ d then (cells.getD (d - k) []).head? else none := by
  induction cells with
  | nil =>
    intro k
    unfold getClosestBeeAux
    refine (findSome?_vanishes _ _ ?_).symm
    intro x _
    by_cases h : minD ≤ x <;> simp [h, List.getD]
  | cons c rest ih =>
    intro k
    unfold getClosestBeeAux
    by_cases hk : maxD < k
    · have hz : maxD + 1 - k = 0 := by omega
      simp [hk, hz]
    · have hrange : maxD + 1 - k = (maxD - k) + 1 := by omega
      have htail : (List.range' (k + 1) (maxD - k)).findSome?
            (fun d => if minD ≤ d then (((c :: rest).getD (d - k) []).head?) else none) =
          getClosestBeeAux maxD minD rest (k + 1) := by
        rw [findSome?_congr_vals _ _
            (fun d => if minD ≤ d then ((rest.getD (d - (k + 1)) []).head?) else none) ?_,
          ih (k + 1)]
        · have h2 : maxD + 1 - (k + 1) = maxD - k := by omega
          rw [h2]
        · intro d hd
          have hdk : k + 1 ≤ d := (List.mem_range'_1.mp hd).1
          have hsub : d - k = (d - (k + 1)) + 1 := by omega
          rw [hsub]
          rfl
      rw [hrange, List.range'_succ k (maxD - k) 1, List.findSome?_cons]
      by_cases hcond : minD ≤ k ∧ 0 < c.length
      · obtain ⟨hmin, hlen⟩ := hcond
        cases c with
        | nil => simp at hlen
        | cons x xs =>
          simp [hk, hmin, hlen, Nat.sub_self]
      · rw [if_neg hk, if_neg hcond]
        by_cases hmin : minD ≤ k
        · have hc : c = [] := by
            cases c with
            | nil => rfl
            | cons x xs =>
              exact absurd ⟨hmin, by simp⟩ hcond
          subst hc
          rw [Nat.sub_self]
          simp only [if_pos hmin]
          exact htail.symm
        · simp only [if_neg hmin]
          exact htail.symm

/-- C4. `Place.getClosestBee(maxHops, minHops)` returns exactly the
spec-described attacker: the head (first by insertion order) of the first
populated cell taking hop distances in ascending order through the
inclusive window `[minHops, maxHops]`, and `none` when no attacker
qualifies. -/
theorem getClosestBee_spec_correct (cells : List (List Nat)) (maxD minD : Nat)
    (_hbounds : minD ≤ maxD) :
    getClosestBee cells maxD minD = closestBeeSpec cells maxD minD := by
  unfold getClosestBee closestBeeSpec
  rw [getClosestBeeAux_eq maxD minD cells 0, List.range_eq_range' (maxD + 1)]
  simp

/-- Witness for C4: chain with an empty own cell and bees `[5, 6]` one hop
away; with window `[1, 2]` both sides pick bee 5. -/
theorem getClosestBee_spec_correct_witness :
    1 ≤ 2
    ∧ getClosestBee [[], [5, 6]] 2 1 = closestBeeSpec [[], [5, 6]] 2 1
    ∧ getClosestBee [[], [5, 6]] 2 1 = some 5 :=
  ⟨by decide, getClosestBee_spec_correct [[], [5, 6]] 2 1 (by decide), by decide⟩

/-! ## C2: command coordinate handling -/

/-- C2 counterexample: on a 1-lane, 3-step board with food 0, the deploy
command with the out-of-range coordinate "0,5" answers with the
resource-failure token instead of the claimed 'illegal location' — the food
check in `AntColony.deployAnt` runs before the `undefined` cell is ever
touched. -/
theorem deploy_out_of_range_food_counterexample :
    gameDeployAnt
        ⟨0, [], [[⟨none, none, []⟩, ⟨none, none, []⟩, ⟨none, none, []⟩]], [], []⟩
        "Grower" "0,5" =
      (some "not enough food",
        ⟨0, [], [[⟨none, none, []⟩, ⟨none, none, []⟩, ⟨none, none, []⟩]], [], []⟩)
    ∧ coordResolves [[⟨none, none, []⟩, ⟨none, none, []⟩, ⟨none, none, []⟩]] "0,5" = false
    ∧ (some "not enough food" : Option String) ≠ some "illegal location" := by decide

/-- C2 amended: a malformed or out-of-range coordinate never causes a fatal
error, never succeeds, and never mutates state; remove always answers
exactly 'illegal location'; deploy answers 'illegal location' whenever the
type is known and food covers the cost, and also whenever the lane
component itself fails to resolve, but answers 'not enough food' when food
is short and the lane resolves with only the step missing; apply-boost
answers 'illegal location' whenever the boost is held with positive count,
and also whenever the lane fails to resolve, but answers 'no such boost'
when the inventory entry is missing or non-positive and the lane
resolves. -/
theorem command_illegal_location_amended (g : GameState) (s : String)
    (hbad : coordResolves g.grid s = false) :
    gameRemoveAnt g s = (some "illegal location", g)
    ∧ (∀ t a, antForType t = some a → a.foodCost ≤ g.food →
        gameDeployAnt g t s = (some "illegal location", g))
    ∧ (∀ t a i, antForType t = some a → g.food < a.foodCost →
        resolveCoordIdx g.grid s = Except.ok (i, none) →
        gameDeployAnt g t s = (some "not enough food", g))
    ∧ (∀ t a, antForType t = some a →
        resolveCoordIdx g.grid s = Except.error () →
        gameDeployAnt g t s = (some "illegal location", g))
    ∧ (∀ b n, lookupBoost g.boosts b = some n → 1 ≤ n →
        gameBoostAnt g b s = (some "illegal location", g))
    ∧ (∀ b i, lookupBoost g.boosts b = none →
        resolveCoordIdx g.grid s = Except.ok (i, none) →
        gameBoostAnt g b s = (some "no such boost", g))
    ∧ (∀ b n i, lookupBoost g.boosts b = some n → n < 1 →
        resolveCoordIdx g.grid s = Except.ok (i, none) →
        gameBoostAnt g b s = (some "no such boost", g))
    ∧ (∀ b, resolveCoordIdx g.grid s = Except.error () →
        gameBoostAnt g b s = (some "illegal location", g)) := by
  have hres : resolveCoordIdx g.grid s = Except.error ()
      ∨ ∃ i, resolveCoordIdx g.grid s = Except.ok (i, none) := by
    unfold coordResolves at hbad
    cases hr : resolveCoordIdx g.grid s with
    | error e =>
      cases e
      exact Or.inl rfl
    | ok p =>
      obtain ⟨i, oj⟩ := p
      cases oj with
      | none => exact Or.inr ⟨i, rfl⟩
      | some j =>
        rw [hr] at hbad
        simp at hbad
  refine ⟨?_, ?_, ?_, ?_, ?_, ?_, ?_, ?_⟩
  · rcases hres with h | ⟨i, h⟩ <;> simp [gameRemoveAnt, h]
  · intro t a hta hfood
    rcases hres with h | ⟨i, h⟩ <;>
      simp [gameDeployAnt, colonyDeployAnt, hta, h, hfood]
  · intro t a i hta hfood hok
    simp [gameDeployAnt, colonyDeployAnt, hta, hok, not_le.mpr hfood]
  · intro t a hta herr
    simp [gameDeployAnt, hta, herr]
  · intro b n hbn hpos
    rcases hres with h | ⟨i, h⟩ <;>
      simp [gameBoostAnt, colonyApplyBoost, h, hbn, not_lt.mpr hpos]
  · intro b i hbn hok
    simp [gameBoostAnt, colonyApplyBoost, hok, hbn]
  · intro b n i hbn hlt hok
    simp [gameBoostAnt, colonyApplyBoost, hok, hbn, hlt]
  · intro b herr
    simp [gameBoostAnt, herr]

/-- Witness for C2's amended theorem: a 1-lane, 1-step board with food 5 and
one IcyLeaf, coordinate "0,9" (lane resolves, step out of range). -/
theorem command_illegal_location_amended_witness :
    coordResolves [[⟨none, none, []⟩]] "0,9" = false
    ∧ gameRemoveAnt ⟨5, [("IcyLeaf", 1)], [[⟨none, none, []⟩]], [], []⟩ "0,9" =
        (some "illegal location", ⟨5, [("IcyLeaf", 1)], [[⟨none, none, []⟩]], [], []⟩) :=
  ⟨by decide,
    (command_illegal_location_amended
      ⟨5, [("IcyLeaf", 1)], [[⟨none, none, []⟩]], [], []⟩ "0,9" (by decide)).1⟩

end AntsBees
